import Mathlib

/-
Shallow embedding of the KeYProject/setup-smt GitHub Action (src/main.ts,
generalized version): per-platform artifact resolution (descriptor tables,
Z3 version-to-suffix lookups) and the provisioning pipeline
(skip-if-no-version, cache lookup, download, extract, cache store,
search-path append), with external collaborators (the tool-cache and
search-path services) modelled as an explicit environment and all
observable side effects recorded in an event trace.
-/

namespace SetupSmt

/-- A per-platform artifact descriptor: the TS interface Tool
with fields url, format, binPath. -/
structure Tool where
  url : String
  format : String
  binPath : String
deriving DecidableEq, Repr

/-- The TS interface Tools: one optional descriptor per platform. -/
structure Tools where
  linux : Option Tool
  windows : Option Tool
  macos : Option Tool
deriving DecidableEq, Repr

/-- JavaScript String.toLowerCase, applied characterwise. -/
def jsToLower (s : String) : String :=
  ⟨s.data.map Char.toLower⟩

/-- The TS module-level constant
platform = (env.RUNNER_OS?.toLowerCase() || 'linux'),
as a function of the optional RUNNER_OS environment value. The
|| operator falls back to "linux" exactly when the lowercased
value is absent or the empty string (the only falsy string). -/
def platformOf (runnerOS : Option String) : String :=
  match runnerOS with
  | none => "linux"
  | some s => if jsToLower s = "" then "linux" else jsToLower s

/-- The TS indexing urls[platform]: a field access for the three
declared platform keys, undefined for every other key. -/
def Tools.get (t : Tools) (p : String) : Option Tool :=
  if p = "linux" then t.linux
  else if p = "windows" then t.windows
  else if p = "macos" then t.macos
  else none

/-- Extraction codec selected by the switch on info.format in download:
cases tar, 7z, xar, and a default branch that calls extractZip. -/
inductive Codec where
  | tar
  | sevenZ
  | xar
  | zip
deriving DecidableEq, Repr

/-- The switch statement on info.format: tar, 7z and xar select their
codec; every other format string (including "file") falls through to the
default branch, which is extractZip. -/
def codecOf (format : String) : Codec :=
  if format = "tar" then Codec.tar
  else if format = "7z" then Codec.sevenZ
  else if format = "xar" then Codec.xar
  else Codec.zip

/-- Observable external operations, in the order the code performs them:
a tool-cache query (tc.find), a download (tc.downloadTool), an extraction
(tc.extractTar / extract7z / extractXar / extractZip), a cache store
(tc.cacheDir), and a search-path append (core.addPath). -/
inductive Event where
  | findQ (tool version platform : String)
  | downloadE (url : String)
  | extractE (codec : Codec) (localPath : String)
  | cacheStore (tool version platform : String) (dir : String)
  | addPath (dir : String)
deriving DecidableEq, Repr

/-- Whether an event is provisioning work (download, extraction, cache
store or search-path append) as opposed to a mere cache query. -/
def Event.isWork : Event → Bool
  | .findQ _ _ _ => false
  | .downloadE _ => true
  | .extractE _ _ => true
  | .cacheStore _ _ _ _ => true
  | .addPath _ => true

/-- Whether an event is a download attempt. -/
def Event.isDownload : Event → Bool
  | .downloadE _ => true
  | .findQ _ _ _ => false
  | .extractE _ _ => false
  | .cacheStore _ _ _ _ => false
  | .addPath _ => false

/-- Whether an event is an extraction. -/
def Event.isExtract : Event → Bool
  | .extractE _ _ => true
  | .findQ _ _ _ => false
  | .downloadE _ => false
  | .cacheStore _ _ _ _ => false
  | .addPath _ => false

/-- Process state threaded through the pipeline: the tool cache
(associating a (tool, version, platform) key with the canonical cached
directory, as maintained by tc.cacheDir / tc.find), the list of
search-path entries appended so far (in order), and the trace of all
external operations performed so far (in order). -/
structure St where
  cache : List ((String × String × String) × String)
  path : List String
  trace : List Event
deriving DecidableEq, Repr

/-- The external collaborators: the RUNNER_OS environment value, the
download transport (none models a network failure), the per-codec
extraction service (none models an extraction failure), and the
tool-cache directory layout (the canonical path tc.cacheDir returns for
a stored tree). -/
structure Env where
  runnerOS : Option String
  download : String → Option String
  extract : Codec → String → Option String
  cachePath : String → String → String → String → String

/-- The tc.find collaborator: look up a (tool, version, platform) key in
the cache. -/
def lookupCache (c : List ((String × String × String) × String))
    (tool version platform : String) : Option String :=
  match c with
  | [] => none
  | (k, dir) :: rest =>
    if k = (tool, version, platform) then some dir
    else lookupCache rest tool version platform

/-- The async function download(tool, version, urls) of src/main.ts,
translated statement by statement. Returns the updated state and,
in the second component, the propagated fatal error if the download
or the extraction failed (none means normal completion). -/
def download (e : Env) (platform : String) (tool version : String)
    (urls : Tools) (s : St) : St × Option String :=
  if version = "" then (s, none)
  else
    let toolPath := lookupCache s.cache tool version platform
    let s1 : St := { s with trace := s.trace ++ [Event.findQ tool version platform] }
    match urls.get platform with
    | none => (s1, none)
    | some info =>
      match toolPath with
      | some tp =>
        ({ s1 with
            path := s1.path ++ [tp ++ "/" ++ info.binPath],
            trace := s1.trace ++ [Event.addPath (tp ++ "/" ++ info.binPath)] }, none)
      | none =>
        let s2 : St := { s1 with trace := s1.trace ++ [Event.downloadE info.url] }
        match e.download info.url with
        | none => (s2, some ("Failed to download " ++ info.url))
        | some downloadPath =>
          let codec := codecOf info.format
          let s3 : St := { s2 with trace := s2.trace ++ [Event.extractE codec downloadPath] }
          match e.extract codec downloadPath with
          | none => (s3, some ("Failed to extract " ++ downloadPath))
          | some extractedPath =>
            let stored := e.cachePath tool version platform extractedPath
            let s4 : St := { s3 with
              cache := ((tool, version, platform), stored) :: s3.cache,
              trace := s3.trace ++ [Event.cacheStore tool version platform stored] }
            ({ s4 with
                path := s4.path ++ [stored ++ "/" ++ info.binPath],
                trace := s4.trace ++ [Event.addPath (stored ++ "/" ++ info.binPath)] }, none)

/-- The function findZ3LinuxGLIBC of src/main.ts: switch on the version
string; the labels 4.13.4, 4.13.3, 4.13.2, 4.13.0 and 4.14.1 fall through
to "2.35", the label 4.14.0 returns "2.35", and the default branch
returns "2.39". -/
def findZ3LinuxGLIBC (version : String) : String :=
  if version = "4.13.4" ∨ version = "4.13.3" ∨ version = "4.13.2" ∨
     version = "4.13.0" ∨ version = "4.14.1" then "2.35"
  else if version = "4.14.0" then "2.35"
  else "2.39"

/-- The function findZ3MacOSSuffix of src/main.ts: switch on the version
string with one suffix per known version; the labels 4.15.4, 4.15.3 and
4.15.1 fall through to the default branch, which returns "13.7.6"
(the newest version as default). -/
def findZ3MacOSSuffix (version : String) : String :=
  if version = "4.13.4" then "13.7.1"
  else if version = "4.13.3" then "13.7"
  else if version = "4.13.2" then "12.7.6"
  else if version = "4.13.0" then "11.7.10"
  else if version = "4.14.1" then "13.7.4"
  else if version = "4.14.0" then "13.7.2"
  else if version = "4.15.0" then "13.7.5"
  else "13.7.6"

/-- The CVC5_TOOL descriptor table built in run, parameterized by the
cvc5Version input. -/
def mkCVC5Tool (v : String) : Tools :=
  { linux := some
      { url := "https://github.com/cvc5/cvc5/releases/download/cvc5-" ++ v ++
          "/cvc5-Linux-x86_64-static.zip",
        format := "zip",
        binPath := "cvc5-Linux-x86_64-static/bin/" },
    windows := some
      { url := "https://github.com/cvc5/cvc5/releases/download/cvc5-" ++ v ++
          "/cvc5-Win64-x86_64-static.zip",
        format := "zip",
        binPath := "cvc5-Win64-x86_64-static/bin/" },
    macos := some
      { url := "https://github.com/cvc5/cvc5/releases/download/cvc5-" ++ v ++
          "/cvc5-macOS-x86_64-static.zip",
        format := "zip",
        binPath := "cvc5-macOS-x86_64-static/bin/" } }

/-- The Z3_TOOL descriptor table built in run, parameterized by the
z3Version input; the Linux and macOS entries embed the version-derived
glibc and macOS suffixes in both the URL and the binary subpath. -/
def mkZ3Tool (v : String) : Tools :=
  { linux := some
      { url := "https://github.com/Z3Prover/z3/releases/download/z3-" ++ v ++
          "/z3-" ++ v ++ "-x64-glibc-" ++ findZ3LinuxGLIBC v ++ ".zip",
        format := "zip",
        binPath := "z3-" ++ v ++ "-x64-glibc-" ++ findZ3LinuxGLIBC v ++ "/bin/" },
    windows := some
      { url := "https://github.com/Z3Prover/z3/releases/download/z3-" ++ v ++
          "/z3-" ++ v ++ "-x64-win.zip",
        format := "zip",
        binPath := "z3-" ++ v ++ "-x64-win/bin/" },
    macos := some
      { url := "https://github.com/Z3Prover/z3/releases/download/z3-" ++ v ++
          "/z3-" ++ v ++ "-x64-osx-" ++ findZ3MacOSSuffix v ++ ".zip",
        format := "zip",
        binPath := "z3-" ++ v ++ "-x64-osx-" ++ findZ3MacOSSuffix v ++ "/bin/" } }

/-- The CVC4_TOOL descriptor table built in run: Linux and Windows point
at a single non-archived executable with format "file" and an empty
binPath; macOS has no descriptor. -/
def mkCVC4Tool (v : String) : Tools :=
  { linux := some
      { url := "https://github.com/CVC4/CVC4/releases/download/" ++ v ++
          "/cvc4-" ++ v ++ "-x86_64-linux-opt",
        format := "file",
        binPath := "" },
    windows := some
      { url := "https://github.com/CVC4/CVC4/releases/download/" ++ v ++
          "/cvc4-" ++ v ++ "-win64-opt.exe",
        format := "file",
        binPath := "" },
    macos := none }

/-- The PRINCESS_TOOL descriptor table built in run: the same zip
descriptor on all three platforms. -/
def mkPrincessTool (v : String) : Tools :=
  let t : Tool :=
    { url := "https://github.com/uuverifiers/princess/releases/download/snapshot-" ++
        v ++ "/princess-bin-" ++ v ++ ".zip",
      format := "zip",
      binPath := "princess-bin-" ++ v ++ "/bin/" }
  { linux := some t, windows := some t, macos := some t }

/-- The action inputs read by run via core.getInput. -/
structure Inputs where
  z3Version : String
  cvc5Version : String
  cvc4Version : String
  princessVersion : String

/-- The entry point run of src/main.ts: determine the platform once,
build the descriptor tables, then provision CVC5 and Z3 sequentially in
that order (the CVC4 and Princess download calls are commented out in
the source, so those tables are built but never provisioned). A fatal
error in the CVC5 step propagates and the Z3 step never starts. -/
def run (e : Env) (inp : Inputs) (s0 : St) : St × Option String :=
  let p := platformOf e.runnerOS
  match download e p "cvc5" inp.cvc5Version (mkCVC5Tool inp.cvc5Version) s0 with
  | (s1, some msg) => (s1, some msg)
  | (s1, none) => download e p "z3" inp.z3Version (mkZ3Tool inp.z3Version) s1

/-- The version-to-suffix pairs defined by the cases of findZ3LinuxGLIBC
(every listed version maps to "2.35"; the default is "2.39"). -/
def z3LinuxGlibcTable : List (String × String) :=
  [("4.13.4", "2.35"), ("4.13.3", "2.35"), ("4.13.2", "2.35"),
   ("4.13.0", "2.35"), ("4.14.1", "2.35"), ("4.14.0", "2.35")]

/-- The version-to-suffix pairs defined by the cases of findZ3MacOSSuffix
(the listed 4.15.4, 4.15.3 and 4.15.1 cases fall through to "13.7.6",
which is also the default). -/
def z3MacSuffixTable : List (String × String) :=
  [("4.13.4", "13.7.1"), ("4.13.3", "13.7"), ("4.13.2", "12.7.6"),
   ("4.13.0", "11.7.10"), ("4.14.1", "13.7.4"), ("4.14.0", "13.7.2"),
   ("4.15.0", "13.7.5"), ("4.15.4", "13.7.6"), ("4.15.3", "13.7.6"),
   ("4.15.1", "13.7.6")]

/-- The empty starting state: empty cache, empty search path, empty
trace. -/
def st0 : St := { cache := [], path := [], trace := [] }

/-- A concrete environment for test scenarios: RUNNER_OS is "Linux",
every download and extraction succeeds, and the tool cache stores a tree
under /cache/tool/version/platform. -/
def envW : Env :=
  { runnerOS := some "Linux",
    download := fun _ => some "dl",
    extract := fun _ _ => some "xdir",
    cachePath := fun tool version platform _ =>
      "/cache/" ++ tool ++ "/" ++ version ++ "/" ++ platform }

/-- Skipping branch of download: an empty version returns at once with
no state change. -/
lemma download_empty_version (e : Env) (p tool : String) (urls : Tools) (s : St) :
    download e p tool "" urls s = (s, none) := by
  simp [download]

/-- Branch of download for a platform with no descriptor: only the cache
query happens, then the function returns with no error. -/
lemma download_no_descriptor (e : Env) (p tool version : String) (urls : Tools)
    (s : St) (hv : version ≠ "") (hnone : urls.get p = none) :
    download e p tool version urls s =
      ({ s with trace := s.trace ++ [Event.findQ tool version p] }, none) := by
  simp [download, hv, hnone]

/-- Cache-hit branch of download: the cached path is joined with the
binary subpath and appended to the search path; nothing else happens. -/
lemma download_cache_hit (e : Env) (p tool version : String) (urls : Tools)
    (info : Tool) (tp : String) (s : St) (hv : version ≠ "")
    (hinfo : urls.get p = some info)
    (hhit : lookupCache s.cache tool version p = some tp) :
    download e p tool version urls s =
      ({ s with
          path := s.path ++ [tp ++ "/" ++ info.binPath],
          trace := s.trace ++ [Event.findQ tool version p,
            Event.addPath (tp ++ "/" ++ info.binPath)] }, none) := by
  simp [download, hv, hinfo, hhit]

/-- Cache-miss branch of download when both the download and the
extraction succeed: one download, one extraction, one cache store and
one search-path append, in that order. -/
lemma download_miss_success (e : Env) (p tool version : String) (urls : Tools)
    (info : Tool) (d x : String) (s : St) (hv : version ≠ "")
    (hinfo : urls.get p = some info)
    (hmiss : lookupCache s.cache tool version p = none)
    (hdl : e.download info.url = some d)
    (hex : e.extract (codecOf info.format) d = some x) :
    download e p tool version urls s =
      ({ cache := ((tool, version, p), e.cachePath tool version p x) :: s.cache,
         path := s.path ++ [e.cachePath tool version p x ++ "/" ++ info.binPath],
         trace := s.trace ++ [Event.findQ tool version p,
           Event.downloadE info.url,
           Event.extractE (codecOf info.format) d,
           Event.cacheStore tool version p (e.cachePath tool version p x),
           Event.addPath (e.cachePath tool version p x ++ "/" ++ info.binPath)] },
       none) := by
  simp [download, hv, hinfo, hmiss, hdl, hex]

/-- Cache-miss branch of download when the download itself fails: the
error is returned and the state records exactly one download attempt. -/
lemma download_miss_fail (e : Env) (p tool version : String) (urls : Tools)
    (info : Tool) (s : St) (hv : version ≠ "")
    (hinfo : urls.get p = some info)
    (hmiss : lookupCache s.cache tool version p = none)
    (hdl : e.download info.url = none) :
    download e p tool version urls s =
      ({ s with trace := s.trace ++ [Event.findQ tool version p,
           Event.downloadE info.url] },
       some ("Failed to download " ++ info.url)) := by
  simp [download, hv, hinfo, hmiss, hdl]

/-- Cache-miss branch of download when the download succeeds but the
extraction fails: the error is returned and the state records exactly
one download and one extraction attempt. -/
lemma download_extract_fail (e : Env) (p tool version : String) (urls : Tools)
    (info : Tool) (d : String) (s : St) (hv : version ≠ "")
    (hinfo : urls.get p = some info)
    (hmiss : lookupCache s.cache tool version p = none)
    (hdl : e.download info.url = some d)
    (hex : e.extract (codecOf info.format) d = none) :
    download e p tool version urls s =
      ({ s with trace := s.trace ++ [Event.findQ tool version p,
           Event.downloadE info.url,
           Event.extractE (codecOf info.format) d] },
       some ("Failed to extract " ++ d)) := by
  simp [download, hv, hinfo, hmiss, hdl, hex]

/-- Looking up the key just stored by tc.cacheDir returns the stored
directory. -/
lemma lookupCache_cons_self (c : List ((String × String × String) × String))
    (tool version p d : String) :
    lookupCache (((tool, version, p), d) :: c) tool version p = some d := by
  simp [lookupCache]

/-- Indexing a descriptor table with a key other than the three declared
platform fields yields nothing. -/
lemma Tools.get_other (t : Tools) (p : String) (h1 : p ≠ "linux")
    (h2 : p ≠ "windows") (h3 : p ≠ "macos") : Tools.get t p = none := by
  simp [Tools.get, h1, h2, h3]

/-- Characterwise lowercasing keeps a string nonempty. -/
lemma jsToLower_ne_empty (s : String) (h : s ≠ "") : jsToLower s ≠ "" := by
  intro hc
  apply h
  have hdata : (jsToLower s).data = s.data.map Char.toLower := rfl
  rw [hc] at hdata
  have hnil : s.data = [] := by
    have := hdata.symm
    simpa using this
  cases s with
  | mk data =>
    simp only at hnil
    simp [hnil]

/-- Filtering out cache queries ignores a trailing tc.find event. -/
lemma filter_isWork_findQ (tr : List Event) (tool version p : String) :
    (tr ++ [Event.findQ tool version p]).filter Event.isWork =
      tr.filter Event.isWork := by
  simp [Event.isWork]

/-- Whether an event is a cache query or a cache store for the given
tool name. -/
def Event.forTool (tool : String) : Event → Bool
  | .findQ t _ _ => t = tool
  | .cacheStore t _ _ _ => t = tool
  | .downloadE _ => false
  | .extractE _ _ => false
  | .addPath _ => false

/-- A download against a platform key with no descriptor entry changes
neither the search path nor the cache, performs no provisioning work,
and reports no error, whatever the version (a disabled version skips
before the cache query; an enabled one performs only the query). -/
lemma download_no_desc_invariants (e : Env) (p tool version : String)
    (urls : Tools) (s : St) (hnone : urls.get p = none) :
    (download e p tool version urls s).2 = none ∧
    (download e p tool version urls s).1.path = s.path ∧
    (download e p tool version urls s).1.cache = s.cache ∧
    (download e p tool version urls s).1.trace.filter Event.isWork =
      s.trace.filter Event.isWork := by
  by_cases hv : version = ""
  · subst hv
    rw [download_empty_version]
    exact ⟨rfl, rfl, rfl, rfl⟩
  · rw [download_no_descriptor e p tool version urls s hv hnone]
    exact ⟨rfl, rfl, rfl, filter_isWork_findQ s.trace tool version p⟩

/-- When the CVC5 step finishes without error, run continues with the
Z3 step from the CVC5 step's state. -/
lemma run_after_cvc5 (e : Env) (inp : Inputs) (s0 : St)
    (h : (download e (platformOf e.runnerOS) "cvc5" inp.cvc5Version
      (mkCVC5Tool inp.cvc5Version) s0).2 = none) :
    run e inp s0 = download e (platformOf e.runnerOS) "z3" inp.z3Version
      (mkZ3Tool inp.z3Version)
      (download e (platformOf e.runnerOS) "cvc5" inp.cvc5Version
        (mkCVC5Tool inp.cvc5Version) s0).1 := by
  unfold run
  dsimp only
  rcases hD : download e (platformOf e.runnerOS) "cvc5" inp.cvc5Version
    (mkCVC5Tool inp.cvc5Version) s0 with ⟨s1, r⟩
  rw [hD] at h
  simp only at h
  subst h
  simp

/-- When the CVC5 step fails, run returns its failing result unchanged:
the Z3 step, not yet started, never executes. -/
lemma run_fail_propagates (e : Env) (inp : Inputs) (s0 s1 : St) (msg : String)
    (h : download e (platformOf e.runnerOS) "cvc5" inp.cvc5Version
      (mkCVC5Tool inp.cvc5Version) s0 = (s1, some msg)) :
    run e inp s0 = (s1, some msg) := by
  unfold run
  dsimp only
  rw [h]

/-- The Z3 Linux descriptor resolved at version 4.14.0, as a literal. -/
def infoW : Tool :=
  { url := "https://github.com/Z3Prover/z3/releases/download/z3-4.14.0/z3-4.14.0-x64-glibc-2.35.zip",
    format := "zip",
    binPath := "z3-4.14.0-x64-glibc-2.35/bin/" }

/-- Concrete action inputs: Z3 4.14.0 and CVC5 1.2.1 enabled, CVC4 and
Princess disabled. -/
def inpC9 : Inputs :=
  { z3Version := "4.14.0", cvc5Version := "1.2.1",
    cvc4Version := "false", princessVersion := "false" }

/-- An environment in which the CVC5 download succeeds but every other
URL (in particular the Z3 one) fails to download. -/
def envF : Env :=
  { runnerOS := some "Linux",
    download := fun u =>
      if u = "https://github.com/cvc5/cvc5/releases/download/cvc5-1.2.1/cvc5-Linux-x86_64-static.zip"
      then some "dl" else none,
    extract := fun _ _ => some "xdir",
    cachePath := fun tool version platform _ =>
      "/cache/" ++ tool ++ "/" ++ version ++ "/" ++ platform }

/-- The state after the successful CVC5 step under envF. -/
def s1F : St := (download envF "linux" "cvc5" "1.2.1" (mkCVC5Tool "1.2.1") st0).1

/-- The CVC5 Linux descriptor resolved at version 1.2.1, as a literal. -/
def cinfoW : Tool :=
  { url := "https://github.com/cvc5/cvc5/releases/download/cvc5-1.2.1/cvc5-Linux-x86_64-static.zip",
    format := "zip",
    binPath := "cvc5-Linux-x86_64-static/bin/" }

/-- An environment in which every download fails. -/
def envCF : Env :=
  { runnerOS := some "Linux",
    download := fun _ => none,
    extract := fun _ _ => some "xdir",
    cachePath := fun tool version platform _ =>
      "/cache/" ++ tool ++ "/" ++ version ++ "/" ++ platform }

/-- The state produced by the failing CVC5 step under envCF. -/
def sCF : St := (download envCF "linux" "cvc5" "1.2.1" (mkCVC5Tool "1.2.1") st0).1

/-- An environment in which every download succeeds and every extraction
fails. -/
def envXF : Env :=
  { runnerOS := some "Linux",
    download := fun _ => some "dl",
    extract := fun _ _ => none,
    cachePath := fun tool version platform _ =>
      "/cache/" ++ tool ++ "/" ++ version ++ "/" ++ platform }

/-- An environment in which every download succeeds (the CVC5 URL yields
the local file dlc, every other URL yields dlz) and extraction succeeds
only for dlc: the CVC5 step completes and the Z3 extraction fails. -/
def envZX : Env :=
  { runnerOS := some "Linux",
    download := fun u =>
      if u = "https://github.com/cvc5/cvc5/releases/download/cvc5-1.2.1/cvc5-Linux-x86_64-static.zip"
      then some "dlc" else some "dlz",
    extract := fun _ p => if p = "dlc" then some "xdir" else none,
    cachePath := fun tool version platform _ =>
      "/cache/" ++ tool ++ "/" ++ version ++ "/" ++ platform }

/-- The state after the successful CVC5 step under envZX. -/
def s1Z : St := (download envZX "linux" "cvc5" "1.2.1" (mkCVC5Tool "1.2.1") st0).1

/-- An environment whose RUNNER_OS is the unrecognized value FreeBSD;
all downloads and extractions would succeed if attempted. -/
def envB : Env :=
  { runnerOS := some "FreeBSD",
    download := fun _ => some "dl",
    extract := fun _ _ => some "xdir",
    cachePath := fun tool version platform _ =>
      "/cache/" ++ tool ++ "/" ++ version ++ "/" ++ platform }

/-- C1: the claim says a version of "" or the literal "false" makes the
install operation return immediately with zero cache queries, zero
downloads, zero extractions and zero search-path mutations. The guard in
the code is the JavaScript truthiness test if (!version), which skips
only the empty string: with version "false" (a truthy string) the code
performs a cache query, a download, an extraction, a cache store and a
search-path append, contradicting the claim (and the README, which says
a tool can be disabled with the version identifier "false"). -/
theorem C1_false_version_not_skipped :
    download envW "linux" "z3" "" (mkZ3Tool "") st0 = (st0, none) ∧
    (download envW "linux" "z3" "false" (mkZ3Tool "false") st0).1.trace =
      [Event.findQ "z3" "false" "linux",
       Event.downloadE
         "https://github.com/Z3Prover/z3/releases/download/z3-false/z3-false-x64-glibc-2.39.zip",
       Event.extractE Codec.zip "dl",
       Event.cacheStore "z3" "false" "linux" "/cache/z3/false/linux",
       Event.addPath "/cache/z3/false/linux/z3-false-x64-glibc-2.39/bin/"] ∧
    (download envW "linux" "z3" "false" (mkZ3Tool "false") st0).1.path =
      ["/cache/z3/false/linux/z3-false-x64-glibc-2.39/bin/"] :=
  ⟨rfl, rfl, rfl⟩

/-- C3: every version string absent from the respective lookup table
maps to the newest-known default, "2.39" for the Linux glibc suffix and
"13.7.6" for the macOS suffix, and every version present in a table maps
to exactly its tabulated suffix (in particular 4.14.0 maps to "2.35" and
"13.7.2"). -/
theorem C3_z3_suffix_lookup (v : String) :
    (v ∉ z3LinuxGlibcTable.map Prod.fst → findZ3LinuxGLIBC v = "2.39") ∧
    (v ∉ z3MacSuffixTable.map Prod.fst → findZ3MacOSSuffix v = "13.7.6") ∧
    (∀ pr ∈ z3LinuxGlibcTable, findZ3LinuxGLIBC pr.1 = pr.2) ∧
    (∀ pr ∈ z3MacSuffixTable, findZ3MacOSSuffix pr.1 = pr.2) := by
  refine ⟨?_, ?_, by decide, by decide⟩
  · intro h
    simp [z3LinuxGlibcTable] at h
    obtain ⟨h1, h2, h3, h4, h5, h6⟩ := h
    simp [findZ3LinuxGLIBC, h1, h2, h3, h4, h5, h6]
  · intro h
    simp [z3MacSuffixTable] at h
    obtain ⟨h1, h2, h3, h4, h5, h6, h7, h8, h9, h10⟩ := h
    simp [findZ3MacOSSuffix, h1, h2, h3, h4, h5, h6, h7]

/-- C3 witness: the unknown future version 5.0.0 resolves to the
defaults "2.39" and "13.7.6". -/
theorem C3_z3_suffix_lookup_witness :
    findZ3LinuxGLIBC "5.0.0" = "2.39" ∧ findZ3MacOSSuffix "5.0.0" = "13.7.6" :=
  ⟨(C3_z3_suffix_lookup "5.0.0").1 (by decide),
   (C3_z3_suffix_lookup "5.0.0").2.1 (by decide)⟩

/-- C4: the claim says a descriptor with format "file" (CVC4 on Linux
and Windows) makes the install operation treat the downloaded file as
the artifact directly with no archive extraction. In the code the switch
on info.format has cases only for tar, 7z and xar, and its default
branch calls extractZip, so format "file" is routed to the zip extractor
and the downloaded standalone executable IS passed to an archive
extraction step, contradicting the claim (the archive-format half of the
claim, tar/7z/xar by their codec, does hold). -/
theorem C4_file_format_zip_extracted :
    codecOf "file" = Codec.zip ∧
    codecOf "tar" = Codec.tar ∧ codecOf "7z" = Codec.sevenZ ∧
    codecOf "xar" = Codec.xar ∧ codecOf "zip" = Codec.zip ∧
    (download envW "linux" "cvc4" "1.8" (mkCVC4Tool "1.8") st0).1.trace =
      [Event.findQ "cvc4" "1.8" "linux",
       Event.downloadE
         "https://github.com/CVC4/CVC4/releases/download/1.8/cvc4-1.8-x86_64-linux-opt",
       Event.extractE Codec.zip "dl",
       Event.cacheStore "cvc4" "1.8" "linux" "/cache/cvc4/1.8/linux",
       Event.addPath "/cache/cvc4/1.8/linux/"] ∧
    ((download envW "linux" "cvc4" "1.8" (mkCVC4Tool "1.8") st0).1.trace.countP
        Event.isExtract = 1) :=
  ⟨rfl, rfl, rfl, rfl, rfl, rfl, rfl⟩

/-- C5 counterexample: the claim says the Z3 macOS descriptor at version
4.14.0 has binary subpath "z3-4.14.0-x64-osx/bin/", but the code builds
the subpath with the macOS suffix included, giving
"z3-4.14.0-x64-osx-13.7.2/bin/". -/
theorem C5_macos_binpath_counterexample :
    ((mkZ3Tool "4.14.0").macos.map Tool.binPath) ≠ some "z3-4.14.0-x64-osx/bin/" := by
  decide

/-- C5 amended: resolving Z3 at 4.14.0 yields, per platform, exactly the
upstream release-asset URLs with suffixes "2.35" (Linux glibc) and
"13.7.2" (macOS), and the macOS binary subpath is
"z3-4.14.0-x64-osx-13.7.2/bin/" (the suffix is part of the extracted
directory name, hence of the subpath). -/
theorem C5_resolved_descriptors :
    (mkZ3Tool "4.14.0").macos = some
      { url := "https://github.com/Z3Prover/z3/releases/download/z3-4.14.0/z3-4.14.0-x64-osx-13.7.2.zip",
        format := "zip",
        binPath := "z3-4.14.0-x64-osx-13.7.2/bin/" } ∧
    (mkZ3Tool "4.14.0").linux = some
      { url := "https://github.com/Z3Prover/z3/releases/download/z3-4.14.0/z3-4.14.0-x64-glibc-2.35.zip",
        format := "zip",
        binPath := "z3-4.14.0-x64-glibc-2.35/bin/" } ∧
    (mkZ3Tool "4.14.0").windows = some
      { url := "https://github.com/Z3Prover/z3/releases/download/z3-4.14.0/z3-4.14.0-x64-win.zip",
        format := "zip",
        binPath := "z3-4.14.0-x64-win/bin/" } ∧
    (mkCVC5Tool "1.2.1").linux = some
      { url := "https://github.com/cvc5/cvc5/releases/download/cvc5-1.2.1/cvc5-Linux-x86_64-static.zip",
        format := "zip",
        binPath := "cvc5-Linux-x86_64-static/bin/" } :=
  ⟨rfl, rfl, rfl, rfl⟩

/-- C6 counterexample: the claim says any unrecognized host-OS value
yields platform linux, but with RUNNER_OS set to FreeBSD the code uses
the lowercased value "freebsd" as the platform (the || fallback fires
only on absent or empty values). -/
theorem C6_platform_counterexample :
    platformOf (some "FreeBSD") ≠ "linux" ∧
    platformOf (some "FreeBSD") = "freebsd" := by
  decide

/-- C6 amended: the platform is derived once from the host-OS signal and
defaults to linux exactly when the signal is absent or lowercases to the
empty string; any other value is lowercased and used as the platform key
verbatim, recognized or not. -/
theorem C6_platform_default (s : String) :
    platformOf none = "linux" ∧
    (jsToLower s = "" → platformOf (some s) = "linux") ∧
    (jsToLower s ≠ "" → platformOf (some s) = jsToLower s) := by
  refine ⟨rfl, ?_, ?_⟩
  · intro h
    simp [platformOf, h]
  · intro h
    simp [platformOf, h]

/-- C6 witness: at the concrete signal FreeBSD the platform is the
lowercased signal, not linux. -/
theorem C6_platform_default_witness :
    platformOf (some "FreeBSD") = jsToLower "FreeBSD" :=
  (C6_platform_default "FreeBSD").2.2 (by decide)

/-- C7: for any tool whose descriptor table has no entry under the
current platform key, install performs only the cache query: no
download, no extraction, no search-path mutation, no cache change, and
it returns without error. -/
theorem C7_absent_descriptor_skips (e : Env) (p tool version : String)
    (urls : Tools) (s : St) (hv : version ≠ "") (hnone : urls.get p = none) :
    download e p tool version urls s =
      ({ s with trace := s.trace ++ [Event.findQ tool version p] }, none) :=
  download_no_descriptor e p tool version urls s hv hnone

/-- C7 witness: CVC4 at version 1.8 on macOS (no descriptor) leaves the
search path and cache untouched and reports no error. -/
theorem C7_absent_descriptor_skips_witness :
    download envW "macos" "cvc4" "1.8" (mkCVC4Tool "1.8") st0 =
      ({ st0 with trace := st0.trace ++ [Event.findQ "cvc4" "1.8" "macos"] }, none) :=
  C7_absent_descriptor_skips envW "macos" "cvc4" "1.8" (mkCVC4Tool "1.8") st0
    (by decide) rfl

/-- C2: with a persistent cache, installing the same (tool, version,
platform) twice performs the download, extraction and cache store
exactly once (during the first call), and appends the search path twice
with an identical resolved path; the second call is answered entirely
from the cache. -/
theorem C2_install_idempotent (e : Env) (p tool version : String) (urls : Tools)
    (info : Tool) (d x : String) (s0 : St) (hv : version ≠ "")
    (hinfo : urls.get p = some info)
    (hmiss : lookupCache s0.cache tool version p = none)
    (hdl : e.download info.url = some d)
    (hex : e.extract (codecOf info.format) d = some x) :
    download e p tool version urls s0 =
      ({ cache := ((tool, version, p), e.cachePath tool version p x) :: s0.cache,
         path := s0.path ++ [e.cachePath tool version p x ++ "/" ++ info.binPath],
         trace := s0.trace ++ [Event.findQ tool version p,
           Event.downloadE info.url,
           Event.extractE (codecOf info.format) d,
           Event.cacheStore tool version p (e.cachePath tool version p x),
           Event.addPath (e.cachePath tool version p x ++ "/" ++ info.binPath)] },
       none) ∧
    download e p tool version urls
      { cache := ((tool, version, p), e.cachePath tool version p x) :: s0.cache,
        path := s0.path ++ [e.cachePath tool version p x ++ "/" ++ info.binPath],
        trace := s0.trace ++ [Event.findQ tool version p,
          Event.downloadE info.url,
          Event.extractE (codecOf info.format) d,
          Event.cacheStore tool version p (e.cachePath tool version p x),
          Event.addPath (e.cachePath tool version p x ++ "/" ++ info.binPath)] } =
      ({ cache := ((tool, version, p), e.cachePath tool version p x) :: s0.cache,
         path := s0.path ++ [e.cachePath tool version p x ++ "/" ++ info.binPath,
           e.cachePath tool version p x ++ "/" ++ info.binPath],
         trace := s0.trace ++ [Event.findQ tool version p,
           Event.downloadE info.url,
           Event.extractE (codecOf info.format) d,
           Event.cacheStore tool version p (e.cachePath tool version p x),
           Event.addPath (e.cachePath tool version p x ++ "/" ++ info.binPath),
           Event.findQ tool version p,
           Event.addPath (e.cachePath tool version p x ++ "/" ++ info.binPath)] },
       none) := by
  constructor
  · exact download_miss_success e p tool version urls info d x s0 hv hinfo hmiss hdl hex
  · rw [download_cache_hit e p tool version urls info (e.cachePath tool version p x) _
      hv hinfo (lookupCache_cons_self s0.cache tool version p _)]
    simp

/-- C2 witness: installing Z3 4.14.0 on linux twice starting from the
empty cache; the first call does the full pipeline, the second is a
cache hit appending the identical path. -/
theorem C2_install_idempotent_witness :
    download envW "linux" "z3" "4.14.0" (mkZ3Tool "4.14.0") st0 =
      ({ cache := (("z3", "4.14.0", "linux"),
           envW.cachePath "z3" "4.14.0" "linux" "xdir") :: st0.cache,
         path := st0.path ++ [envW.cachePath "z3" "4.14.0" "linux" "xdir" ++ "/" ++ infoW.binPath],
         trace := st0.trace ++ [Event.findQ "z3" "4.14.0" "linux",
           Event.downloadE infoW.url,
           Event.extractE (codecOf infoW.format) "dl",
           Event.cacheStore "z3" "4.14.0" "linux" (envW.cachePath "z3" "4.14.0" "linux" "xdir"),
           Event.addPath (envW.cachePath "z3" "4.14.0" "linux" "xdir" ++ "/" ++ infoW.binPath)] },
       none) ∧
    download envW "linux" "z3" "4.14.0" (mkZ3Tool "4.14.0")
      { cache := (("z3", "4.14.0", "linux"),
          envW.cachePath "z3" "4.14.0" "linux" "xdir") :: st0.cache,
        path := st0.path ++ [envW.cachePath "z3" "4.14.0" "linux" "xdir" ++ "/" ++ infoW.binPath],
        trace := st0.trace ++ [Event.findQ "z3" "4.14.0" "linux",
          Event.downloadE infoW.url,
          Event.extractE (codecOf infoW.format) "dl",
          Event.cacheStore "z3" "4.14.0" "linux" (envW.cachePath "z3" "4.14.0" "linux" "xdir"),
          Event.addPath (envW.cachePath "z3" "4.14.0" "linux" "xdir" ++ "/" ++ infoW.binPath)] } =
      ({ cache := (("z3", "4.14.0", "linux"),
           envW.cachePath "z3" "4.14.0" "linux" "xdir") :: st0.cache,
         path := st0.path ++ [envW.cachePath "z3" "4.14.0" "linux" "xdir" ++ "/" ++ infoW.binPath,
           envW.cachePath "z3" "4.14.0" "linux" "xdir" ++ "/" ++ infoW.binPath],
         trace := st0.trace ++ [Event.findQ "z3" "4.14.0" "linux",
           Event.downloadE infoW.url,
           Event.extractE (codecOf infoW.format) "dl",
           Event.cacheStore "z3" "4.14.0" "linux" (envW.cachePath "z3" "4.14.0" "linux" "xdir"),
           Event.addPath (envW.cachePath "z3" "4.14.0" "linux" "xdir" ++ "/" ++ infoW.binPath),
           Event.findQ "z3" "4.14.0" "linux",
           Event.addPath (envW.cachePath "z3" "4.14.0" "linux" "xdir" ++ "/" ++ infoW.binPath)] },
       none) :=
  C2_install_idempotent envW "linux" "z3" "4.14.0" (mkZ3Tool "4.14.0") infoW
    "dl" "xdir" st0 (by decide) rfl rfl rfl rfl

/-- C8: a failing download or extraction for an enabled tool is fatal to
run, propagated and never retried, with completed steps kept and
not-yet-started steps never executed. The five conjuncts: (1) any
failure of the first (CVC5) step is returned by run unchanged, so the
Z3 step never executes (the final state IS the CVC5-failure state,
containing no Z3 events and no further work); (2) a failing CVC5
download makes run return the failure with exactly one recorded download
attempt (no retry) and no other effects; (3) same for a failing CVC5
extraction, after exactly one download and one extraction attempt;
(4) a failing Z3 download after a completed CVC5 step makes run return
the failure while all completed CVC5 effects (the state s1, its cache
entry and search-path append) remain in effect, again with a single
download attempt; (5) same for a failing Z3 extraction. -/
theorem C8_failure_fatal (e : Env) (inp : Inputs) (s0 s1 : St) (msg : String)
    (cinfo zinfo : Tool) (d dz : String) :
    (download e (platformOf e.runnerOS) "cvc5" inp.cvc5Version
        (mkCVC5Tool inp.cvc5Version) s0 = (s1, some msg) →
      run e inp s0 = (s1, some msg)) ∧
    (inp.cvc5Version ≠ "" →
     (mkCVC5Tool inp.cvc5Version).get (platformOf e.runnerOS) = some cinfo →
     lookupCache s0.cache "cvc5" inp.cvc5Version (platformOf e.runnerOS) = none →
     e.download cinfo.url = none →
      run e inp s0 =
        ({ s0 with trace := s0.trace ++
            [Event.findQ "cvc5" inp.cvc5Version (platformOf e.runnerOS),
             Event.downloadE cinfo.url] },
         some ("Failed to download " ++ cinfo.url))) ∧
    (inp.cvc5Version ≠ "" →
     (mkCVC5Tool inp.cvc5Version).get (platformOf e.runnerOS) = some cinfo →
     lookupCache s0.cache "cvc5" inp.cvc5Version (platformOf e.runnerOS) = none →
     e.download cinfo.url = some d →
     e.extract (codecOf cinfo.format) d = none →
      run e inp s0 =
        ({ s0 with trace := s0.trace ++
            [Event.findQ "cvc5" inp.cvc5Version (platformOf e.runnerOS),
             Event.downloadE cinfo.url,
             Event.extractE (codecOf cinfo.format) d] },
         some ("Failed to extract " ++ d))) ∧
    (download e (platformOf e.runnerOS) "cvc5" inp.cvc5Version
        (mkCVC5Tool inp.cvc5Version) s0 = (s1, none) →
     inp.z3Version ≠ "" →
     (mkZ3Tool inp.z3Version).get (platformOf e.runnerOS) = some zinfo →
     lookupCache s1.cache "z3" inp.z3Version (platformOf e.runnerOS) = none →
     e.download zinfo.url = none →
      run e inp s0 =
        ({ s1 with trace := s1.trace ++
            [Event.findQ "z3" inp.z3Version (platformOf e.runnerOS),
             Event.downloadE zinfo.url] },
         some ("Failed to download " ++ zinfo.url))) ∧
    (download e (platformOf e.runnerOS) "cvc5" inp.cvc5Version
        (mkCVC5Tool inp.cvc5Version) s0 = (s1, none) →
     inp.z3Version ≠ "" →
     (mkZ3Tool inp.z3Version).get (platformOf e.runnerOS) = some zinfo →
     lookupCache s1.cache "z3" inp.z3Version (platformOf e.runnerOS) = none →
     e.download zinfo.url = some dz →
     e.extract (codecOf zinfo.format) dz = none →
      run e inp s0 =
        ({ s1 with trace := s1.trace ++
            [Event.findQ "z3" inp.z3Version (platformOf e.runnerOS),
             Event.downloadE zinfo.url,
             Event.extractE (codecOf zinfo.format) dz] },
         some ("Failed to extract " ++ dz))) := by
  refine ⟨?_, ?_, ?_, ?_, ?_⟩
  · intro h
    exact run_fail_propagates e inp s0 s1 msg h
  · intro hv hinfo hmiss hfl
    exact run_fail_propagates e inp s0 _ _
      (download_miss_fail e (platformOf e.runnerOS) "cvc5" inp.cvc5Version
        (mkCVC5Tool inp.cvc5Version) cinfo s0 hv hinfo hmiss hfl)
  · intro hv hinfo hmiss hdl hex
    exact run_fail_propagates e inp s0 _ _
      (download_extract_fail e (platformOf e.runnerOS) "cvc5" inp.cvc5Version
        (mkCVC5Tool inp.cvc5Version) cinfo d s0 hv hinfo hmiss hdl hex)
  · intro hcvc5 hzv hzinfo hmiss hfl
    simp only [run, hcvc5]
    exact download_miss_fail e (platformOf e.runnerOS) "z3" inp.z3Version
      (mkZ3Tool inp.z3Version) zinfo s1 hzv hzinfo hmiss hfl
  · intro hcvc5 hzv hzinfo hmiss hdl hex
    simp only [run, hcvc5]
    exact download_extract_fail e (platformOf e.runnerOS) "z3" inp.z3Version
      (mkZ3Tool inp.z3Version) zinfo dz s1 hzv hzinfo hmiss hdl hex

/-- C8 witness: each failure case at concrete inputs. Under envCF the
CVC5 download fails and run returns exactly the CVC5-failure state (no
Z3 activity, one download attempt); under envXF the CVC5 extraction
fails likewise; under envF the CVC5 step completes and the Z3 download
fails, run keeping the CVC5 cache entry and path append; under envZX
the CVC5 step completes and the Z3 extraction fails, likewise. -/
theorem C8_failure_fatal_witness :
    run envCF inpC9 st0 = (sCF, some ("Failed to download " ++ cinfoW.url)) ∧
    run envCF inpC9 st0 =
      ({ st0 with trace := st0.trace ++
          [Event.findQ "cvc5" "1.2.1" (platformOf envCF.runnerOS),
           Event.downloadE cinfoW.url] },
       some ("Failed to download " ++ cinfoW.url)) ∧
    run envXF inpC9 st0 =
      ({ st0 with trace := st0.trace ++
          [Event.findQ "cvc5" "1.2.1" (platformOf envXF.runnerOS),
           Event.downloadE cinfoW.url,
           Event.extractE (codecOf cinfoW.format) "dl"] },
       some ("Failed to extract " ++ "dl")) ∧
    run envF inpC9 st0 =
      ({ s1F with trace := s1F.trace ++
          [Event.findQ "z3" "4.14.0" (platformOf envF.runnerOS),
           Event.downloadE infoW.url] },
       some ("Failed to download " ++ infoW.url)) ∧
    run envZX inpC9 st0 =
      ({ s1Z with trace := s1Z.trace ++
          [Event.findQ "z3" "4.14.0" (platformOf envZX.runnerOS),
           Event.downloadE infoW.url,
           Event.extractE (codecOf infoW.format) "dlz"] },
       some ("Failed to extract " ++ "dlz")) :=
  ⟨(C8_failure_fatal envCF inpC9 st0 sCF ("Failed to download " ++ cinfoW.url)
      cinfoW infoW "dl" "dlz").1 rfl,
   (C8_failure_fatal envCF inpC9 st0 st0 "" cinfoW infoW "dl" "dlz").2.1
      (by decide) rfl rfl rfl,
   (C8_failure_fatal envXF inpC9 st0 st0 "" cinfoW infoW "dl" "dlz").2.2.1
      (by decide) rfl rfl rfl rfl,
   (C8_failure_fatal envF inpC9 st0 s1F "" cinfoW infoW "dl" "dlz").2.2.2.1
      rfl (by decide) rfl rfl rfl,
   (C8_failure_fatal envZX inpC9 st0 s1Z "" cinfoW infoW "dlc" "dlz").2.2.2.2
      rfl (by decide) rfl rfl rfl rfl⟩

/-- C9: the end-to-end linux scenario with z3Version 4.14.0 and
cvc5Version 1.2.1 (CVC4 and Princess disabled) appends exactly two
search-path entries, CVC5 first and Z3 second, each a bin/ directory of
the respective cached install directory, and the trace contains no CVC4
or Princess cache or store activity at all (the full trace is exactly
the two provisioning pipelines). -/
theorem C9_end_to_end :
    run envW inpC9 st0 =
      ({ cache := [(("z3", "4.14.0", "linux"), "/cache/z3/4.14.0/linux"),
                   (("cvc5", "1.2.1", "linux"), "/cache/cvc5/1.2.1/linux")],
         path := ["/cache/cvc5/1.2.1/linux/cvc5-Linux-x86_64-static/bin/",
                  "/cache/z3/4.14.0/linux/z3-4.14.0-x64-glibc-2.35/bin/"],
         trace := [Event.findQ "cvc5" "1.2.1" "linux",
           Event.downloadE
             "https://github.com/cvc5/cvc5/releases/download/cvc5-1.2.1/cvc5-Linux-x86_64-static.zip",
           Event.extractE Codec.zip "dl",
           Event.cacheStore "cvc5" "1.2.1" "linux" "/cache/cvc5/1.2.1/linux",
           Event.addPath "/cache/cvc5/1.2.1/linux/cvc5-Linux-x86_64-static/bin/",
           Event.findQ "z3" "4.14.0" "linux",
           Event.downloadE
             "https://github.com/Z3Prover/z3/releases/download/z3-4.14.0/z3-4.14.0-x64-glibc-2.35.zip",
           Event.extractE Codec.zip "dl",
           Event.cacheStore "z3" "4.14.0" "linux" "/cache/z3/4.14.0/linux",
           Event.addPath "/cache/z3/4.14.0/linux/z3-4.14.0-x64-glibc-2.35/bin/"] },
       none) ∧
    ("/cache/cvc5/1.2.1/linux/cvc5-Linux-x86_64-static/bin/" =
      "/cache/cvc5/1.2.1/linux" ++ "/" ++ "cvc5-Linux-x86_64-static/bin/") ∧
    ("/cache/z3/4.14.0/linux/z3-4.14.0-x64-glibc-2.35/bin/" =
      "/cache/z3/4.14.0/linux" ++ "/" ++ "z3-4.14.0-x64-glibc-2.35/bin/") ∧
    ((run envW inpC9 st0).1.trace.countP (Event.forTool "cvc4") = 0) ∧
    ((run envW inpC9 st0).1.trace.countP (Event.forTool "princess") = 0) :=
  ⟨rfl, rfl, rfl, rfl, rfl⟩

/-- C10: with RUNNER_OS set to a non-empty value whose lowercasing is
none of linux, windows or macos, every tool's descriptor lookup under
that platform key yields nothing, so run performs zero downloads, zero
extractions, zero cache stores and zero search-path mutations, and
finishes without error (at most the two tc.find cache queries occur). -/
theorem C10_unknown_platform_all_skipped (e : Env) (inp : Inputs) (s0 : St)
    (os : String) (hos : e.runnerOS = some os) (hne : os ≠ "")
    (h1 : jsToLower os ≠ "linux") (h2 : jsToLower os ≠ "windows")
    (h3 : jsToLower os ≠ "macos") :
    (run e inp s0).2 = none ∧
    (run e inp s0).1.path = s0.path ∧
    (run e inp s0).1.cache = s0.cache ∧
    (run e inp s0).1.trace.filter Event.isWork = s0.trace.filter Event.isWork := by
  have hp : platformOf e.runnerOS = jsToLower os := by
    rw [hos]
    simp [platformOf, jsToLower_ne_empty os hne]
  have hget : ∀ t : Tools, t.get (platformOf e.runnerOS) = none := by
    intro t
    rw [hp]
    exact Tools.get_other t (jsToLower os) h1 h2 h3
  have hc := download_no_desc_invariants e (platformOf e.runnerOS) "cvc5"
    inp.cvc5Version (mkCVC5Tool inp.cvc5Version) s0 (hget _)
  have hrun := run_after_cvc5 e inp s0 hc.1
  have hz := download_no_desc_invariants e (platformOf e.runnerOS) "z3"
    inp.z3Version (mkZ3Tool inp.z3Version)
    (download e (platformOf e.runnerOS) "cvc5" inp.cvc5Version
      (mkCVC5Tool inp.cvc5Version) s0).1 (hget _)
  rw [hrun]
  exact ⟨hz.1, hz.2.1.trans hc.2.1, hz.2.2.1.trans hc.2.2.1,
    hz.2.2.2.trans hc.2.2.2⟩

/-- C10 witness: with RUNNER_OS FreeBSD and both tools at real versions,
run mutates neither the search path nor the cache, performs no
provisioning work, and reports no error. -/
theorem C10_unknown_platform_all_skipped_witness :
    (run envB inpC9 st0).2 = none ∧
    (run envB inpC9 st0).1.path = st0.path ∧
    (run envB inpC9 st0).1.cache = st0.cache ∧
    (run envB inpC9 st0).1.trace.filter Event.isWork =
      st0.trace.filter Event.isWork :=
  C10_unknown_platform_all_skipped envB inpC9 st0 "FreeBSD" rfl (by decide)
    (by decide) (by decide) (by decide)

end SetupSmt
